import Mathlib

set_option maxRecDepth 10000

/-!
Verification development for the atari2600 emulator (Rust sources under src/).

Machine integers are modelled as `Nat` with explicit masks (`% 256`, `&&& 0xff`,
...) where the Rust code relies on the fixed width; `usize` subtraction that can
underflow (a panic in a debug build) is modelled with `Option`; `i16`/`isize`
values are modelled as `Int`.  Each definition is a direct transcription of the
Rust function named in its doc comment.
-/

namespace Atari

/-! ## RIOT (src/riot.rs) -/

/-- State of the `RIOT` struct (src/riot.rs, lines 4-21).  `ram` is the
128-byte RAM, indexed 0..127. -/
structure RiotState where
  ram : Nat → Nat
  swcha : Nat
  swacnt : Nat
  swchb : Nat
  swbcnt : Nat
  intim : Nat
  instat : Nat
  portA : Nat
  portB : Nat
  resolution : Nat
  cycleCount : Nat

/-- `RIOT::new` (src/riot.rs, lines 24-45): port B starts as `0b1100_1000`,
everything else zero. -/
def RiotState.new : RiotState :=
  { ram := fun _ => 0
    swcha := 0
    swacnt := 0
    swchb := 0
    swbcnt := 0
    intim := 0
    instat := 0
    portA := 0
    portB := 0xC8
    resolution := 0
    cycleCount := 0 }

/-- `RIOT::decrement` (src/riot.rs, lines 125-137): `intim.overflowing_sub(1)`;
on underflow `INSTAT` becomes `0b1100_0000` and the resolution drops to 1;
finally `cycle_count` is reloaded from the (possibly updated) resolution. -/
def RiotState.decrement (s : RiotState) : RiotState :=
  let underflowed := s.intim = 0
  let newIntim := if underflowed then 255 else s.intim - 1
  let newInstat := if underflowed then 0xC0 else s.instat
  let newResolution := if underflowed then 1 else s.resolution
  { s with intim := newIntim
           instat := newInstat
           resolution := newResolution
           cycleCount := newResolution }

/-- `RIOT::clock` (src/riot.rs, lines 109-115): `self.cycle_count -= 1` is an
unsigned (`usize`) subtraction, so a call with `cycle_count == 0` underflows;
that case is modelled as `none`. -/
def RiotState.clock (s : RiotState) : Option RiotState :=
  if s.cycleCount = 0 then
    none
  else
    let cc := s.cycleCount - 1
    if cc = 0 then some (RiotState.decrement { s with cycleCount := cc })
    else some { s with cycleCount := cc }

/-- `RIOT::init_timer` (src/riot.rs, lines 119-123): load `INTIM`, set the
resolution, and immediately decrement once. -/
def RiotState.initTimer (s : RiotState) (val resolution : Nat) : RiotState :=
  RiotState.decrement { s with intim := val, resolution := resolution }

/-- `<RIOT as Bus>::write` (src/riot.rs, lines 172-197). -/
def RiotState.write (s : RiotState) (address val : Nat) : RiotState :=
  if address ≤ 0x7f then { s with ram := Function.update s.ram address val }
  else if address = 0x281 then { s with swacnt := val }
  else if address = 0x283 then { s with swbcnt := val }
  else if address = 0x294 then s.initTimer val 1
  else if address = 0x295 then s.initTimer val 8
  else if address = 0x296 then s.initTimer val 64
  else if address = 0x297 then s.initTimer val 1024
  else s

/-- `<RIOT as Bus>::read` (src/riot.rs, lines 141-170); reading `INSTAT`
clears its bit 6, so the read returns the value together with the new state. -/
def RiotState.read (s : RiotState) (address : Nat) : Nat × RiotState :=
  if address ≤ 0x7f then (s.ram address, s)
  else if address = 0x280 then
    ((s.swcha &&& s.swacnt) ||| (s.portA &&& (s.swacnt ^^^ 0xff)), s)
  else if address = 0x282 then
    ((s.swchb &&& s.swbcnt) ||| (s.portB &&& (s.swbcnt ^^^ 0xff)), s)
  else if address = 0x284 then (s.intim, s)
  else if address = 0x285 then (s.instat, { s with instat := s.instat &&& 0xBF })
  else (0, s)

/-- `n` successive `RIOT::clock` calls, propagating the underflow case. -/
def RiotState.clockN : Nat → RiotState → Option RiotState
  | 0, s => some s
  | n + 1, s => s.clock.bind (RiotState.clockN n)

/-! ## CPU flag byte (src/cpu6507.rs) -/

/-- The seven status flags of `CPU6507` plus the unused bit
(src/cpu6507.rs, lines 495-502). -/
structure CpuFlags where
  c : Bool
  z : Bool
  i : Bool
  d : Bool
  b : Bool
  u : Bool
  v : Bool
  s : Bool

/-- `CPU6507::flags` (src/cpu6507.rs, lines 579-588). -/
def CpuFlags.toByte (f : CpuFlags) : Nat :=
  (if f.c then 1 else 0) |||
  ((if f.z then 1 else 0) <<< 1) |||
  ((if f.i then 1 else 0) <<< 2) |||
  ((if f.d then 1 else 0) <<< 3) |||
  ((if f.b then 1 else 0) <<< 4) |||
  ((if f.u then 1 else 0) <<< 5) |||
  ((if f.v then 1 else 0) <<< 6) |||
  ((if f.s then 1 else 0) <<< 7)

/-- `CPU6507::set_flags` (src/cpu6507.rs, lines 590-599). -/
def CpuFlags.ofByte (val : Nat) : CpuFlags :=
  { c := val &&& 0x01 == 1
    z := (val >>> 1) &&& 0x01 == 1
    i := (val >>> 2) &&& 0x01 == 1
    d := (val >>> 3) &&& 0x01 == 1
    b := (val >>> 4) &&& 0x01 == 1
    u := (val >>> 5) &&& 0x01 == 1
    v := (val >>> 6) &&& 0x01 == 1
    s := (val >>> 7) &&& 0x01 == 1 }

/-- The flag restore performed by `CPU6507::plp` (src/cpu6507.rs, lines
1112-1115) and `CPU6507::rti` (lines 1149-1151) on the byte popped from the
stack: `set_flags(p & 0xef | 0x20)`. -/
def plpRestore (v : Nat) : CpuFlags :=
  CpuFlags.ofByte ((v &&& 0xef) ||| 0x20)

/-! ## ADC / SBC (src/cpu6507.rs) -/

/-- The CPU registers and flags that `adc`/`sbc` read and write: accumulator
plus the C, Z, V, S flags and the decimal-mode flag D. -/
structure AluState where
  a : Nat
  c : Bool
  z : Bool
  v : Bool
  s : Bool
  d : Bool

/-- `CPU6507::adc` (src/cpu6507.rs, lines 797-842) applied to an operand byte
`val` (the byte that `self.read(addr)` returns).  In the BCD branch the source
leaves C unchanged (the assignment is commented out) and computes Z as
`((lo + hi) & 0xff) != 0`; both quirks are transcribed as-is. -/
def adc (st : AluState) (val : Nat) : AluState :=
  if st.d then
    let lo0 := (st.a &&& 0x0f) + (val &&& 0x0f) + (if st.c then 1 else 0)
    let hi0 := (st.a &&& 0xf0) + (val &&& 0xf0)
    let hi1 := if 0x09 < lo0 then hi0 + 0x10 else hi0
    let lo1 := if 0x09 < lo0 then lo0 + 0x06 else lo0
    let s1 := (hi1 &&& 0x80) != 0
    let z1 := ((lo1 + hi1) &&& 0xff) != 0
    let v1 := ((st.a ^^^ val) &&& 0x80 == 0) && ((st.a ^^^ (hi1 % 256)) &&& 0x80 != 0)
    let hi2 := if 0x90 < hi1 then hi1 + 0x60 else hi1
    { st with a := (lo1 &&& 0x0f) ||| (hi2 &&& 0xf0), s := s1, z := z1, v := v1 }
  else
    let n := st.a + val + (if st.c then 1 else 0)
    let a := n &&& 0xff
    { st with a := a
              s := (a &&& 0x80) != 0
              z := a == 0
              c := 0xff < n
              v := ((st.a ^^^ val) &&& 0x80 == 0) && ((st.a ^^^ a) &&& 0x80 != 0) }

/-- `CPU6507::sbc` (src/cpu6507.rs, lines 1162-1202) applied to an operand
byte `val`.  The BCD branch works on `i16` values, modelled with `Int`; the
binary branch first replaces `val` by its bitwise complement (`!val` on a
`u8`, i.e. `val ^^^ 0xff`) and then repeats the `adc` code verbatim. -/
def sbc (st : AluState) (val : Nat) : AluState :=
  if st.d then
    let notC : Int := if st.c then 0 else 1
    let temp0 : Int := (st.a : Int) - (val : Int) - notC
    let lo : Int := ((st.a : Int) % 16) - ((val : Int) % 16) - notC
    let temp1 := if temp0 < 0 then temp0 - 0x60 else temp0
    let temp2 := if lo < 0 then temp1 - 0x06 else temp1
    let a := (temp2 % 256).toNat
    { st with a := a
              s := (a &&& 0x80) != 0
              z := a == 0
              v := ((st.a ^^^ val) &&& 0x80 == 0) && ((st.a ^^^ a) &&& 0x80 != 0)
              c := decide (0 ≤ temp2) }
  else
    let nval := val ^^^ 0xff
    let n := st.a + nval + (if st.c then 1 else 0)
    let a := n &&& 0xff
    { st with a := a
              s := (a &&& 0x80) != 0
              z := a == 0
              c := 0xff < n
              v := ((st.a ^^^ nval) &&& 0x80 == 0) && ((st.a ^^^ a) &&& 0x80 != 0) }

/-! ## Branch instructions (src/cpu6507.rs) -/

/-- The eight conditional branch instructions. -/
inductive BranchKind
  | bcc | bcs | beq | bmi | bne | bpl | bvc | bvs
deriving DecidableEq

/-- The fields of `CPU6507` that the branch bodies touch: the four tested
flags, the program counter (already advanced past the instruction), and the
cycle counter. -/
structure BranchState where
  c : Bool
  z : Bool
  v : Bool
  s : Bool
  pc : Nat
  cycles : Nat

/-- `CPU6507::add_branch_cycles` (src/cpu6507.rs, lines 661-670): one extra
cycle for a taken branch, one more if the target is on a different page. -/
def addBranchCycles (st : BranchState) (pc addr : Nat) : BranchState :=
  let st1 := { st with cycles := st.cycles + 1 }
  if (pc &&& 0xff00) != (addr &&& 0xff00) then
    { st1 with cycles := st1.cycles + 1 }
  else st1

/-- `CPU6507::bcc` (src/cpu6507.rs, lines 868-874). -/
def BranchState.bcc (st : BranchState) (addr : Nat) : BranchState :=
  if !st.c then
    let st1 := addBranchCycles st st.pc addr
    { st1 with pc := addr }
  else st

/-- `CPU6507::bcs` (src/cpu6507.rs, lines 876-882). -/
def BranchState.bcs (st : BranchState) (addr : Nat) : BranchState :=
  if st.c then
    let st1 := addBranchCycles st st.pc addr
    { st1 with pc := addr }
  else st

/-- `CPU6507::beq` (src/cpu6507.rs, lines 884-890). -/
def BranchState.beq (st : BranchState) (addr : Nat) : BranchState :=
  if st.z then
    let st1 := addBranchCycles st st.pc addr
    { st1 with pc := addr }
  else st

/-- `CPU6507::bmi` (src/cpu6507.rs, lines 900-906). -/
def BranchState.bmi (st : BranchState) (addr : Nat) : BranchState :=
  if st.s then
    let st1 := addBranchCycles st st.pc addr
    { st1 with pc := addr }
  else st

/-- `CPU6507::bne` (src/cpu6507.rs, lines 908-914). -/
def BranchState.bne (st : BranchState) (addr : Nat) : BranchState :=
  if !st.z then
    let st1 := addBranchCycles st st.pc addr
    { st1 with pc := addr }
  else st

/-- `CPU6507::bpl` (src/cpu6507.rs, lines 916-922). -/
def BranchState.bpl (st : BranchState) (addr : Nat) : BranchState :=
  if !st.s then
    let st1 := addBranchCycles st st.pc addr
    { st1 with pc := addr }
  else st

/-- `CPU6507::bvc` (src/cpu6507.rs, lines 941-947). -/
def BranchState.bvc (st : BranchState) (addr : Nat) : BranchState :=
  if !st.v then
    let st1 := addBranchCycles st st.pc addr
    { st1 with pc := addr }
  else st

/-- `CPU6507::bvs` (src/cpu6507.rs, lines 949-955). -/
def BranchState.bvs (st : BranchState) (addr : Nat) : BranchState :=
  if st.v then
    let st1 := addBranchCycles st st.pc addr
    { st1 with pc := addr }
  else st

/-- Dispatch of `CPU6507::execute` (src/cpu6507.rs, lines 706-715) restricted
to the branch instructions. -/
def execBranch : BranchKind → BranchState → Nat → BranchState
  | .bcc, st, addr => st.bcc addr
  | .bcs, st, addr => st.bcs addr
  | .beq, st, addr => st.beq addr
  | .bmi, st, addr => st.bmi addr
  | .bne, st, addr => st.bne addr
  | .bpl, st, addr => st.bpl addr
  | .bvc, st, addr => st.bvc addr
  | .bvs, st, addr => st.bvs addr

/-- Base cycle count of each branch opcode in the `OPCODES` table
(src/cpu6507.rs: entries 0x90, 0xB0, 0xF0, 0x30, 0xD0, 0x10, 0x50, 0x70, all
`Opcode(_, Relative, 2, 1)`). -/
def branchBaseCycles : BranchKind → Nat
  | .bcc => 2
  | .bcs => 2
  | .beq => 2
  | .bmi => 2
  | .bne => 2
  | .bpl => 2
  | .bvc => 2
  | .bvs => 2

/-- Extra-cycle column of the branch rows of the `OPCODES` table. -/
def branchExtraCycles : BranchKind → Nat
  | .bcc => 1
  | .bcs => 1
  | .beq => 1
  | .bmi => 1
  | .bne => 1
  | .bpl => 1
  | .bvc => 1
  | .bvs => 1

/-- `AddressingMode::get_data` for `Relative` (src/cpu6507.rs, lines 100-109)
always reports `page_crossed = false`, so `fetch_and_decode` never adds the
extra-cycle column for a branch. -/
def relativePageCrossed : Bool := false

/-- `pages_differ` (src/cpu6507.rs, lines 47-49), also inlined in
`add_branch_cycles`. -/
def pagesDiffer (a b : Nat) : Bool := (a &&& 0xff00) != (b &&& 0xff00)

/-- Total cycles consumed by one branch instruction: the base cycles charged
by `fetch_and_decode` (plus the extra column if the addressing mode reported a
page crossing, which `Relative` never does) plus whatever the branch body adds
through `add_branch_cycles`. -/
def branchConsumedCycles (k : BranchKind) (st : BranchState) (addr : Nat) : Nat :=
  (branchBaseCycles k + (if relativePageCrossed then branchExtraCycles k else 0))
    + ((execBranch k st addr).cycles - st.cycles)

/-- The flag test guarding each branch body (the `if` conditions of
`CPU6507::bcc` .. `CPU6507::bvs`). -/
def branchTaken : BranchKind → BranchState → Bool
  | .bcc, st => !st.c
  | .bcs, st => st.c
  | .beq, st => st.z
  | .bmi, st => st.s
  | .bne, st => !st.z
  | .bpl, st => !st.s
  | .bvc, st => !st.v
  | .bvs, st => st.v

/-! ## Counter (src/tia/counter.rs) -/

/-- State of the `Counter` struct (src/tia/counter.rs, lines 1-9).  All
fields are `u8` in the source. -/
structure CounterState where
  period : Nat
  resetValue : Nat
  internalValue : Nat
  lastValue : Nat
  ticksAdded : Nat
  movementRequired : Bool

/-- `Counter::new_counter` (src/tia/counter.rs, lines 22-32). -/
def CounterState.new (period resetValue : Nat) : CounterState :=
  { period := period
    resetValue := resetValue
    internalValue := 0
    lastValue := 0
    ticksAdded := 0
    movementRequired := false }

/-- `Counter::reset` (src/tia/counter.rs, lines 34-36). -/
def CounterState.reset (c : CounterState) : CounterState :=
  { c with internalValue := c.resetValue * 4 }

/-- `Counter::value` (src/tia/counter.rs, lines 38-40). -/
def CounterState.value (c : CounterState) : Nat :=
  c.internalValue / 4

/-- `Counter::reset_to` (src/tia/counter.rs, lines 42-44). -/
def CounterState.resetTo (c : CounterState) (v : Nat) : CounterState :=
  { c with internalValue := v }

/-- `Counter::clock` (src/tia/counter.rs, lines 46-56).  `internal_value` is a
`u8`, so the increment is taken `% 256` before the `%= period * 4` reduction
(for the periods in use, 40 and 57, `period * 4` itself fits in a `u8`). -/
def CounterState.clock (c : CounterState) : CounterState × Bool :=
  let iv := ((c.internalValue + 1) % 256) % (c.period * 4)
  let c1 := { c with internalValue := iv }
  if c.lastValue ≠ c1.value then ({ c1 with lastValue := c1.value }, true)
  else (c1, false)

/-- `hmove_value` (src/tia/counter.rs, lines 11-19). -/
def counterHmoveValue (v : Nat) : Nat :=
  let nibble := v >>> 4
  if nibble < 8 then nibble + 8 else nibble - 8

/-- `Counter::start_hmove` (src/tia/counter.rs, lines 58-61). -/
def CounterState.startHmove (c : CounterState) (hmVal : Nat) : CounterState :=
  { c with ticksAdded := 0, movementRequired := counterHmoveValue hmVal != 0 }

/-- `Counter::apply_hmove` (src/tia/counter.rs, lines 63-73); returns the new
state together with the `(moved, clocked)` pair. -/
def CounterState.applyHmove (c : CounterState) (hmVal : Nat) :
    CounterState × (Bool × Bool) :=
  if !c.movementRequired then (c, (false, false))
  else
    let pair := c.clock
    let c1 := pair.fst
    let c2 := { c1 with ticksAdded := (c1.ticksAdded + 1) % 256 }
    let c3 := { c2 with movementRequired := c2.ticksAdded != counterHmoveValue hmVal }
    (c3, (true, pair.snd))

/-! ## Colors (src/tia/color.rs) -/

/-- The `Colors` struct (src/tia/color.rs). -/
structure Colors where
  colup0 : Nat
  colup1 : Nat
  colupf : Nat
  colubk : Nat

/-- `Colors::new_colors` (src/tia/color.rs, lines 9-16). -/
def Colors.new : Colors :=
  { colup0 := 0, colup1 := 0, colupf := 0, colubk := 0 }

/-! ## Playfield (src/tia/playfield.rs) -/

/-- State of the `Playfield` struct (src/tia/playfield.rs, lines 7-24); the
`[bool; 20]` array is modelled as a function (only indices 0..19 are used). -/
structure Playfield where
  ctr : CounterState
  pf0 : Nat
  pf1 : Nat
  pf2 : Nat
  pf : Nat → Bool
  horizontalMirror : Bool
  scoreMode : Bool
  priority : Bool
  graphicBitValue : Option Nat

/-- `Playfield::new_playfield` (src/tia/playfield.rs, lines 27-43). -/
def Playfield.new : Playfield :=
  { ctr := CounterState.new 40 39
    pf0 := 0
    pf1 := 0
    pf2 := 0
    pf := fun _ => false
    horizontalMirror := false
    scoreMode := false
    priority := false
    graphicBitValue := none }

/-- `Playfield::set_pf0` (src/tia/playfield.rs, lines 45-53): bits 4..7 of
PF0, big-endian, become playfield bits 0..3. -/
def Playfield.setPf0 (p : Playfield) (val : Nat) : Playfield :=
  { p with pf0 := val
           pf := fun x => if x < 4 then (val >>> (x + 4)) &&& 0x01 != 0 else p.pf x }

/-- `Playfield::set_pf1` (src/tia/playfield.rs, lines 55-63): bits of PF1,
little-endian, become playfield bits 4..11. -/
def Playfield.setPf1 (p : Playfield) (val : Nat) : Playfield :=
  { p with pf1 := val
           pf := fun x =>
             if 4 ≤ x ∧ x < 12 then (val >>> (7 - (x - 4))) &&& 0x01 != 0 else p.pf x }

/-- `Playfield::set_pf2` (src/tia/playfield.rs, lines 65-72): bits of PF2
become playfield bits 12..19. -/
def Playfield.setPf2 (p : Playfield) (val : Nat) : Playfield :=
  { p with pf2 := val
           pf := fun x =>
             if 12 ≤ x ∧ x < 20 then (val >>> (x - 12)) &&& 0x01 != 0 else p.pf x }

/-- `Playfield::set_control` (src/tia/playfield.rs, lines 74-78); note that
`score_mode` is computed from the freshly assigned `priority`. -/
def Playfield.setControl (p : Playfield) (val : Nat) : Playfield :=
  let mirror := (val &&& 0x01) != 0
  let prio := (val &&& 0x04) != 0
  { p with horizontalMirror := mirror
           priority := prio
           scoreMode := ((val &&& 0x02) != 0) && !prio }

/-- `Playfield::get_color` (src/tia/playfield.rs, lines 123-125).  The caller
in src/tia.rs passes the pixel `x`, which this variant of the playfield
ignores: the colour comes from the stored `graphic_bit_value`. -/
def Playfield.getColor (p : Playfield) : Option Nat :=
  p.graphicBitValue

/-! ## Ball (src/tia/ball.rs) -/

/-- `INIT_DELAY` (src/tia/ball.rs, line 7). -/
def ballInitDelay : Int := 4

/-- `GRAPHIC_SIZE` (src/tia/ball.rs, line 8). -/
def ballGraphicSize : Int := 1

/-- State of the `Ball` struct (src/tia/ball.rs, lines 10-28); the shared
`Rc<RefCell<Colors>>` lives in the TIA state and is passed to `get_color`. -/
structure Ball where
  hmoveOffset : Nat
  ctr : CounterState
  enabled : Bool
  nusiz : Nat
  vdel : Bool
  oldValue : Bool
  graphicBitIdx : Option Int
  graphicBitCopiesWritten : Nat
  graphicBitValue : Option Bool

/-- `Ball::new` (src/tia/ball.rs, lines 31-48). -/
def Ball.new : Ball :=
  { hmoveOffset := 0
    ctr := CounterState.new 40 39
    enabled := false
    nusiz := 1
    vdel := false
    oldValue := false
    graphicBitIdx := none
    graphicBitCopiesWritten := 0
    graphicBitValue := none }

/-- `Ball::set_enabled` (src/tia/ball.rs, line 50). -/
def Ball.setEnabled (b : Ball) (v : Bool) : Ball := { b with enabled := v }

/-- `Ball::set_hmove_value` (src/tia/ball.rs, line 51). -/
def Ball.setHmoveValue (b : Ball) (v : Nat) : Ball := { b with hmoveOffset := v }

/-- The ball-size setter called `set_size` by src/tia.rs (named `set_nusiz`
in src/tia/ball.rs, line 54). -/
def Ball.setSize (b : Ball) (size : Nat) : Ball := { b with nusiz := size }

/-- `Ball::hmclr` (src/tia/ball.rs, line 55). -/
def Ball.hmclr (b : Ball) : Ball := { b with hmoveOffset := 0 }

/-- `Ball::should_draw_graphic` (src/tia/ball.rs, lines 103-105). -/
def Ball.shouldDrawGraphic (b : Ball) : Bool := b.ctr.value == 39

/-- `Ball::should_draw_copy` (src/tia/ball.rs, line 107). -/
def Ball.shouldDrawCopy (_ : Ball) : Bool := false

/-- `Ball::pixel_bit` (src/tia/ball.rs, lines 71-77). -/
def Ball.pixelBit (b : Ball) : Bool :=
  if b.vdel then b.oldValue else b.enabled

/-- `Ball::tick_graphic_circuit` (src/tia/ball.rs, lines 79-101). -/
def Ball.tickGraphicCircuit (b : Ball) : Ball :=
  match b.graphicBitIdx with
  | some idx =>
    if 0 ≤ idx ∧ idx < 8 then
      let b1 := { b with graphicBitValue := some b.pixelBit }
      let copies := b1.graphicBitCopiesWritten + 1
      let hitSize := copies = b1.nusiz
      let b2 := { b1 with graphicBitCopiesWritten := if hitSize then 0 else copies }
      let idx2 := if hitSize then idx + 1 else idx
      if idx2 = ballGraphicSize then { b2 with graphicBitIdx := none }
      else { b2 with graphicBitIdx := some idx2 }
    else { b with graphicBitIdx := some (idx + 1) }
  | none => { b with graphicBitValue := none }

/-- `Ball::reset` (src/tia/ball.rs, lines 56-63). -/
def Ball.reset (b : Ball) : Ball :=
  let b1 := { b with ctr := b.ctr.reset }
  if b1.shouldDrawGraphic || b1.shouldDrawCopy then
    { b1 with graphicBitIdx := some (-1 * ballInitDelay), graphicBitCopiesWritten := 0 }
  else b1

/-- `Ball::start_hmove` (src/tia/ball.rs, lines 65-68). -/
def Ball.startHmove (b : Ball) : Ball :=
  Ball.tickGraphicCircuit { b with ctr := b.ctr.startHmove b.hmoveOffset }

/-- `Ball::clock` (src/tia/ball.rs, lines 109-116).  src/tia.rs calls this
per-tick step `tick_visible`; that name is absent from the snapshot, and this
is the Ball's per-tick routine it contains.  It never touches the TIA's own
HSYNC counter or scanline. -/
def Ball.tickVisible (b : Ball) : Ball :=
  let b1 := b.tickGraphicCircuit
  let pair := b1.ctr.clock
  let b2 := { b1 with ctr := pair.fst }
  if pair.snd && (b2.shouldDrawGraphic || b2.shouldDrawCopy) then
    { b2 with graphicBitIdx := some (-1 * ballInitDelay), graphicBitCopiesWritten := 0 }
  else b2

/-- `Ball::get_color` (src/tia/ball.rs, lines 131-137). -/
def Ball.getColor (b : Ball) (colors : Colors) : Option Nat :=
  if b.graphicBitValue = some true then some colors.colupf else none

/-! ## TIA (src/tia.rs) -/

/-- State of the `TIA` struct (src/tia.rs, lines 19-69).  The frame buffer
stores the palette index chosen for each pixel; the fixed NTSC palette lookup
to RGB (src/tia/palette.rs) is a pure table and is not modelled. -/
structure TIAState where
  scanline : Nat
  ctr : CounterState
  vsync : Bool
  vblank : Bool
  lateResetHblank : Nat
  wsync : Bool
  colors : Colors
  pf : Playfield
  grp0 : Nat
  refp0 : Bool
  p0x : Nat
  hmp0 : Nat
  grp1 : Nat
  refp1 : Bool
  p1x : Nat
  hmp1 : Nat
  m0x : Nat
  enam0 : Bool
  hmm0 : Nat
  m0size : Nat
  m1x : Nat
  enam1 : Bool
  hmm1 : Nat
  m1size : Nat
  bl : Ball
  p0ctr : Nat
  p1ctr : Nat
  m0ctr : Nat
  m1ctr : Nat
  pixels : Nat → Nat → Nat

/-- `TIA::new_tia` (src/tia.rs, lines 76-122).  The HSYNC counter is built
with period 57; the snapshot's `Counter::new_counter` also takes a reset
value, which is 0 for the HSYNC counter (it always wraps to 0). -/
def TIAState.new : TIAState :=
  { scanline := 0
    ctr := CounterState.new 57 0
    vsync := false
    vblank := false
    lateResetHblank := 0
    wsync := false
    colors := Colors.new
    pf := Playfield.new
    grp0 := 0
    refp0 := false
    p0x := 0
    hmp0 := 0
    grp1 := 0
    refp1 := false
    p1x := 0
    hmp1 := 0
    m0x := 0
    enam0 := false
    hmm0 := 0
    m0size := 0
    m1x := 0
    enam1 := false
    hmm1 := 0
    m1size := 0
    bl := Ball.new
    p0ctr := 0
    p1ctr := 0
    m0ctr := 0
    m1ctr := 0
    pixels := fun _ _ => 0 }

/-- `TIA::cpu_halt` (src/tia.rs, line 124). -/
def TIAState.cpuHalt (s : TIAState) : Bool := s.wsync

/-- `TIA::in_hblank` (src/tia.rs, lines 126-128). -/
def TIAState.inHblank (s : TIAState) : Bool :=
  decide (s.ctr.internalValue < 68 + s.lateResetHblank)

/-- `TIA::tick` (src/tia.rs, lines 132-144).  `internal_value` is a `u8`, so
the increment is taken `% 256`. -/
def TIAState.tick (s : TIAState) : TIAState :=
  if 262 ≤ s.scanline then s
  else
    let iv := (s.ctr.internalValue + 1) % 256
    if iv = 228 then
      { s with scanline := s.scanline + 1, ctr := { s.ctr with internalValue := 0 } }
    else
      { s with ctr := { s.ctr with internalValue := iv } }

/-- `TIA::get_m0_color` (src/tia.rs, lines 146-152). -/
def TIAState.getM0Color (s : TIAState) (x : Nat) : Option Nat :=
  if s.m0x ≤ x ∧ x < s.m0x + s.m0size ∧ s.enam0 then some s.colors.colup0 else none

/-- `TIA::get_m1_color` (src/tia.rs, lines 154-160). -/
def TIAState.getM1Color (s : TIAState) (x : Nat) : Option Nat :=
  if s.m1x ≤ x ∧ x < s.m1x + s.m1size ∧ s.enam1 then some s.colors.colup1 else none

/-- `TIA::get_p0_color` (src/tia.rs, lines 162-178). -/
def TIAState.getP0Color (s : TIAState) (x : Nat) : Option Nat :=
  if s.p0x ≤ x ∧ x < s.p0x + 8 then
    let xo := x - s.p0x
    if s.refp0 then
      if s.grp0 &&& (1 <<< xo) ≠ 0 then some s.colors.colup0 else none
    else
      if s.grp0 &&& (1 <<< (7 - xo)) ≠ 0 then some s.colors.colup0 else none
  else none

/-- `TIA::get_p1_color` (src/tia.rs, lines 180-196). -/
def TIAState.getP1Color (s : TIAState) (x : Nat) : Option Nat :=
  if s.p1x ≤ x ∧ x < s.p1x + 8 then
    let xo := x - s.p1x
    if s.refp1 then
      if s.grp1 &&& (1 <<< xo) ≠ 0 then some s.colors.colup1 else none
    else
      if s.grp1 &&& (1 <<< (7 - xo)) ≠ 0 then some s.colors.colup1 else none
  else none

/-- `TIA::get_pixel_color` (src/tia.rs, lines 200-237). -/
def TIAState.getPixelColor (s : TIAState) (x : Nat) : Nat :=
  if !s.pf.priority then
    ((((((s.getP0Color x).or (s.getM0Color x)).or (s.getP1Color x)).or
        (s.getM1Color x)).or s.pf.getColor).or (s.bl.getColor s.colors)).getD
      s.colors.colubk
  else
    ((((((s.pf.getColor).or (s.bl.getColor s.colors)).or (s.getP0Color x)).or
        (s.getM0Color x)).or (s.getP1Color x)).or (s.getM1Color x)).getD
      s.colors.colubk

/-- The visible-dot section of `TIA::clock` (src/tia.rs, lines 258-271),
applied to the state in which the HSYNC counter has already been advanced:
inside the visible scanline and dot windows, render one pixel and tick the
ball. -/
def TIAState.clockVisible (s1 : TIAState) : TIAState :=
  let visibleCycle := 17 ≤ s1.ctr.value ∧ s1.ctr.value ≤ 56
  let visibleScanline := 40 ≤ s1.scanline ∧ s1.scanline < 232
  if visibleScanline ∧ visibleCycle then
    let x := s1.ctr.internalValue - 68
    let y := s1.scanline - 40
    let color := s1.getPixelColor x
    let s2a := { s1 with
      pixels := fun j i => if j = y ∧ i = x then color else s1.pixels j i }
    { s2a with bl := s2a.bl.tickVisible }
  else s1

/-- The end-of-scanline section of `TIA::clock` (src/tia.rs, lines 275-292):
if the counter clocked and wrapped to position 0, clear WSYNC, advance the
scanline (capped at 262) and report end-of-frame when the scanline hits 3. -/
def TIAState.clockScanline (s2 : TIAState) (clocked : Bool) : TIAState × Bool :=
  if clocked && (s2.ctr.value == 0) then
    let s3 : TIAState := { s2 with wsync := false }
    let s4 : TIAState :=
      if s3.scanline < 262 then { s3 with scanline := s3.scanline + 1 } else s3
    (s4, decide (s4.scanline = 3))
  else (s2, false)

/-- `TIA::clock` (src/tia.rs, lines 239-293); the returned `Bool` is the
`end_of_frame` field of `StepResult`.  The HSYNC counter is advanced first;
the visible-dot and end-of-scanline sections then run on the updated state. -/
def TIAState.clock (s : TIAState) : TIAState × Bool :=
  let pair := s.ctr.clock
  TIAState.clockScanline (TIAState.clockVisible { s with ctr := pair.fst }) pair.snd

/-- `<TIA as Bus>::read` (src/tia.rs, lines 299-301): every read returns 0. -/
def TIAState.read (_ : TIAState) (_ : Nat) : Nat := 0

/-- `hmove_value` (src/tia.rs, lines 559-569). -/
def tiaHmoveValue (v : Nat) : Nat :=
  if v = 0 then 0 else if v < 8 then v + 8 else v - 8

/-- The size decode shared by CTRLPF ball size and NUSIZx missile size
(src/tia.rs, lines 349-355, 381-387, 393-399): bits 4-5 select 1/2/4/8. -/
def tiaSizeDecode (val : Nat) : Nat :=
  let bits := (val &&& 0x30) >>> 4
  if bits = 0 then 1 else if bits = 1 then 2 else if bits = 2 then 4 else 8

/-- The RESMPx centering offset (src/tia.rs, lines 499-505): the source
matches on `m0_size` with arms 1, 2, 4, 8 (any other value is
`unreachable!`). -/
def tiaResmpOffset (size : Nat) : Nat :=
  if size = 1 then 3 else if size = 2 then 6 else if size = 4 then 10 else 15

/-- `<TIA as Bus>::write` (src/tia.rs, lines 303-556), one arm per register;
the VDELxx arms (0x25..0x27) and the audio range (0x15..0x1a) only log and
leave the state unchanged, as does the default arm. -/
def TIAState.write (s : TIAState) (address val : Nat) : TIAState :=
  if address = 0x00 then
    let vs := (val &&& 0x02) != 0
    let s1 := { s with vsync := vs }
    if vs then { s1 with ctr := { s1.ctr with internalValue := 0 }, scanline := 0 }
    else s1
  else if address = 0x01 then { s with vblank := (val &&& 0x02) != 0 }
  else if address = 0x02 then { s with wsync := true }
  else if address = 0x03 then s
  else if address = 0x06 then
    { s with colors := { s.colors with colup0 := val &&& 0xfe } }
  else if address = 0x07 then
    { s with colors := { s.colors with colup1 := val &&& 0xfe } }
  else if address = 0x08 then
    { s with colors := { s.colors with colupf := val &&& 0xfe } }
  else if address = 0x09 then
    { s with colors := { s.colors with colubk := val &&& 0xfe } }
  else if address = 0x0a then
    { s with pf := s.pf.setControl val, bl := s.bl.setSize (tiaSizeDecode val) }
  else if address = 0x0d then { s with pf := s.pf.setPf0 val }
  else if address = 0x0e then { s with pf := s.pf.setPf1 val }
  else if address = 0x0f then { s with pf := s.pf.setPf2 val }
  else if address = 0x04 then { s with m0size := tiaSizeDecode val }
  else if address = 0x05 then { s with m1size := tiaSizeDecode val }
  else if address = 0x0b then { s with refp0 := (val &&& 0x08) != 0 }
  else if address = 0x0c then { s with refp1 := (val &&& 0x08) != 0 }
  else if address = 0x10 then
    { s with p0x := if s.inHblank then 3 else s.ctr.internalValue - 68 }
  else if address = 0x11 then
    { s with p1x := if s.inHblank then 3 else s.ctr.internalValue - 68 }
  else if address = 0x12 then
    { s with m0x := if s.inHblank then 2 else s.ctr.internalValue - 68 }
  else if address = 0x13 then
    { s with m1x := if s.inHblank then 2 else s.ctr.internalValue - 68 }
  else if address = 0x14 then { s with bl := s.bl.reset }
  else if address = 0x1b then { s with grp0 := val }
  else if address = 0x1c then { s with grp1 := val }
  else if address = 0x1d then { s with enam0 := (val &&& 0x02) != 0 }
  else if address = 0x1e then { s with enam1 := (val &&& 0x02) != 0 }
  else if address = 0x1f then { s with bl := s.bl.setEnabled ((val &&& 0x02) != 0) }
  else if address = 0x20 then { s with hmp0 := tiaHmoveValue (val >>> 4) }
  else if address = 0x21 then { s with hmp1 := tiaHmoveValue (val >>> 4) }
  else if address = 0x22 then { s with hmm0 := tiaHmoveValue (val >>> 4) }
  else if address = 0x23 then { s with hmm1 := tiaHmoveValue (val >>> 4) }
  else if address = 0x24 then { s with bl := s.bl.setHmoveValue (val >>> 4) }
  else if address = 0x28 then
    if (val &&& 0x02) != 0 then { s with m0x := s.p0x + tiaResmpOffset s.m0size }
    else s
  else if address = 0x29 then
    if (val &&& 0x02) != 0 then { s with m1x := s.p1x + tiaResmpOffset s.m0size }
    else s
  else if address = 0x2a then
    { s with p0x := (s.p0x + s.hmp0) % 160
             p1x := (s.p1x + s.hmp1) % 160
             m0x := (s.m0x + s.hmm0) % 160
             m1x := (s.m1x + s.hmm1) % 160
             bl := s.bl.startHmove
             lateResetHblank := 8 }
  else if address = 0x2b then
    { s with hmp0 := 0, hmp1 := 0, hmm0 := 0, hmm1 := 0, bl := s.bl.hmclr }
  else s

/-! ## Bus and machine (src/bus.rs, src/cpu6507.rs) -/

/-- The registers of `CPU6507` (src/cpu6507.rs, lines 486-517) that matter
for the bus-level claims. -/
structure CpuState where
  a : Nat
  x : Nat
  y : Nat
  flags : CpuFlags
  pc : Nat
  sp : Nat
  cycles : Nat

/-- The whole machine as wired by `AtariBus` (src/bus.rs, lines 16-30): the
CPU, the cartridge ROM, the TIA and the RIOT. -/
structure Machine where
  cpu : CpuState
  rom : Nat → Nat
  tia : TIAState
  riot : RiotState

/-- A machine as assembled in `main` (src/main.rs): fresh TIA and RIOT, the
given ROM, and a fresh CPU with `sp = STACK_INIT = 0xff`
(`CPU6507::new`, src/cpu6507.rs, lines 532-560). -/
def Machine.new (rom : Nat → Nat) : Machine :=
  { cpu := { a := 0, x := 0, y := 0
             flags := { c := false, z := false, i := false, d := false
                        b := false, u := false, v := false, s := false }
             pc := 0, sp := 0xff, cycles := 0 }
    rom := rom
    tia := TIAState.new
    riot := RiotState.new }

/-- `<AtariBus as Bus>::read` (src/bus.rs, lines 33-50): decode by the A12,
A9, A7 address lines; a read may mutate the RIOT (INSTAT). -/
def Machine.busRead (m : Machine) (address : Nat) : Nat × Machine :=
  let a12 := address &&& 0x1000 != 0
  let a9 := address &&& 0x200 != 0
  let a7 := address &&& 0x80 != 0
  if a12 then (m.rom (address &&& 0xfff), m)
  else if a9 && a7 then
    let pair := m.riot.read (address &&& 0x2ff)
    (pair.fst, { m with riot := pair.snd })
  else if !a9 && a7 then
    let pair := m.riot.read (address &&& 0x7f)
    (pair.fst, { m with riot := pair.snd })
  else (m.tia.read ((address &&& 0x0f) ||| 0x30), m)

/-- `<AtariBus as Bus>::write` (src/bus.rs, lines 52-69). -/
def Machine.busWrite (m : Machine) (address val : Nat) : Machine :=
  let a12 := address &&& 0x1000 != 0
  let a9 := address &&& 0x200 != 0
  let a7 := address &&& 0x80 != 0
  if a12 then { m with rom := Function.update m.rom (address &&& 0xfff) val }
  else if a9 && a7 then { m with riot := m.riot.write (address &&& 0x2ff) val }
  else if !a9 && a7 then { m with riot := m.riot.write (address &&& 0x7f) val }
  else { m with tia := m.tia.write (address &&& 0x3f) val }

/-- `<CPU6507 as Bus>::read` (src/cpu6507.rs, lines 520-523): only 13 address
lines are connected, so the address is masked with `0x1fff`. -/
def Machine.cpuRead (m : Machine) (addr : Nat) : Nat × Machine :=
  m.busRead (addr &&& 0x1fff)

/-- `<CPU6507 as Bus>::write` (src/cpu6507.rs, lines 525-528). -/
def Machine.cpuWrite (m : Machine) (addr val : Nat) : Machine :=
  m.busWrite (addr &&& 0x1fff) val

/-- `CPU6507::stack_push8` (src/cpu6507.rs, lines 622-629): write to
`0x0000 | sp`, then decrement SP with wrapping. -/
def Machine.stackPush8 (m : Machine) (val : Nat) : Machine :=
  let addr := 0x0000 ||| m.cpu.sp
  let m1 := m.cpuWrite addr val
  { m1 with cpu := { m1.cpu with sp := (m1.cpu.sp + 255) % 256 } }

/-- `CPU6507::stack_pop8` (src/cpu6507.rs, lines 631-640): increment SP with
wrapping, then read from `0x0000 | sp`. -/
def Machine.stackPop8 (m : Machine) : Nat × Machine :=
  let sp1 := (m.cpu.sp + 1) % 256
  let m1 : Machine := { m with cpu := { m.cpu with sp := sp1 } }
  let pair := m1.cpuRead (0x0000 ||| sp1)
  (pair.fst, pair.snd)

/-- One element of an interleaved push/pop sequence. -/
inductive StackOp
  | push : Nat → StackOp
  | pop : StackOp

/-- Run a sequence of `stack_push8`/`stack_pop8` calls on the machine,
collecting the value returned by each pop. -/
def runStack : Machine → List StackOp → Machine × List Nat
  | m, [] => (m, [])
  | m, .push v :: rest => runStack (m.stackPush8 v) rest
  | m, .pop :: rest =>
    let pair := m.stackPop8
    let res := runStack pair.snd rest
    (res.fst, pair.fst :: res.snd)

/-- Ideal LIFO behaviour, written from the claim: each pop returns the value
of the most recent unmatched push (the head of an abstract stack). -/
def lifoSpecOutputs : List Nat → List StackOp → List Nat
  | _, [] => []
  | st, .push v :: rest => lifoSpecOutputs (v :: st) rest
  | st, .pop :: rest => st.headD 0 :: lifoSpecOutputs st.tail rest

/-- The claim's side condition on a push/pop sequence: starting from `d`
unmatched pushes, pops never outnumber pushes. -/
def noUnderflow : Nat → List StackOp → Bool
  | _, [] => true
  | d, .push _ :: rest => noUnderflow (d + 1) rest
  | d, .pop :: rest => decide (0 < d) && noUnderflow (d - 1) rest

/-- The amended side condition: pops never outnumber pushes AND the number of
unmatched pushes never exceeds 128 (the depth of the RIOT RAM window
0x80..0xff that the 6507 stack actually reaches). -/
def depthOk : Nat → List StackOp → Bool
  | _, [] => true
  | d, .push _ :: rest => decide (d < 128) && depthOk (d + 1) rest
  | d, .pop :: rest => decide (0 < d) && depthOk (d - 1) rest

/-- Refinement invariant tying a machine to the abstract stack `L` (most
recent push first): SP mirrors the depth, and the k-th oldest unmatched push
value sits in RIOT RAM cell `127 - k`. -/
def StackRel (m : Machine) (L : List Nat) : Prop :=
  m.cpu.sp + L.length = 255 ∧
  L.length ≤ 128 ∧
  ∀ k, k < L.length → m.riot.ram (127 - k) = L.getD (L.length - 1 - k) 0

/-! ## Specification-side definitions for the remaining claims -/

/-- The priority multiplexer as the claim words it: the first non-transparent
candidate in the given order, else the background colour.  (Order: PF, BL,
P0, M0, P1, M1 when `priority` is set; P0, M0, P1, M1, PF, BL otherwise.) -/
def prioritySelect (priority : Bool) (p0 m0 p1 m1 pf bl : Option Nat)
    (bk : Nat) : Nat :=
  let order := if priority then [pf, bl, p0, m0, p1, m1] else [p0, m0, p1, m1, pf, bl]
  (order.findSome? id).getD bk

/-- The C9 invariant: the HSYNC counter has period 57 and its internal phase
is in [0, 228). -/
def hsyncInv (s : TIAState) : Prop :=
  s.ctr.period = 57 ∧ s.ctr.internalValue < 228

/-! ## Theorems -/

/-- Claim C3: with the D flag clear, `sbc` on operand `m` produces exactly
the same accumulator and C, V, S, Z flags as `adc` on the bitwise complement
of `m` (`m ^^^ 0xff` for a byte operand), for every starting accumulator
value, operand and incoming flag assignment. -/
theorem sbc_is_adc_of_complement (a m : Nat) (c z v s : Bool) :
    sbc { a := a, c := c, z := z, v := v, s := s, d := false } m =
      adc { a := a, c := c, z := z, v := v, s := s, d := false } (m ^^^ 0xff) := by
  rfl

/-- Claim C4: for every byte `v`, restoring the flags from `v` the way PLP and
RTI do (`set_flags(v & 0xef | 0x20)`) and reading them back with `flags()`
yields `(v | 0x20) & ~0x10`; equivalently bit 4 of the restored flag byte is
clear and bit 5 is set. -/
theorem plp_flags_roundtrip :
    ∀ v < 256,
      (plpRestore v).toByte = (v ||| 0x20) &&& 0xef ∧
      Nat.testBit (plpRestore v).toByte 4 = false ∧
      Nat.testBit (plpRestore v).toByte 5 = true := by
  decide

/-- Witness for `plp_flags_roundtrip` at the byte 0x35. -/
theorem plp_flags_roundtrip_witness :
    (plpRestore 0x35).toByte = (0x35 ||| 0x20) &&& 0xef ∧
      Nat.testBit (plpRestore 0x35).toByte 4 = false ∧
      Nat.testBit (plpRestore 0x35).toByte 5 = true :=
  plp_flags_roundtrip 0x35 (by decide)

/-- Counterexample for claim C2 as stated: after writing 0x02 to the VBLANK
register of a fresh TIA the `vblank` flag is set, yet reading the TIA (the
bus maps the VBLANK address to `0x31`) returns 0 rather than the VBLANK
register value — `<TIA as Bus>::read` returns 0 for every address, so no TIA
read (VBLANK, INPT4, INPT5, ...) ever reflects the state. -/
theorem tia_read_stub_cex :
    (TIAState.new.write 0x01 0x02).vblank = true ∧
    (TIAState.new.write 0x01 0x02).read 0x31 = 0 := by
  decide

/-- Claim C2 (amended): every CPU read that the bus decodes to the TIA
(A12 = 0 and A7 = 0) returns 0, regardless of the TIA state — the TIA read
path is a stub. -/
theorem tia_bus_read_zero (m : Machine) (address : Nat)
    (h12 : address &&& 0x1000 = 0) (h7 : address &&& 0x80 = 0) :
    (m.busRead address).fst = 0 := by
  unfold Machine.busRead
  simp [h12, h7, TIAState.read]

/-- Witness for `tia_bus_read_zero`: reading the (mirrored) VBLANK address
0x31 on a fresh machine returns 0. -/
theorem tia_bus_read_zero_witness :
    ((Machine.new (fun _ => 0)).busRead 0x31).fst = 0 :=
  tia_bus_read_zero (Machine.new (fun _ => 0)) 0x31 (by decide) (by decide)

/-- Counterexample for claim C6 as stated: from the reachable state
`Counter::new(40, 39)` followed by `reset()` (exactly what `Ball::reset`
does), the next `clock()` returns `true` although the position value
`internal / 4` does not change (it stays 39) — `reset` does not update the
`last_value` field, so the "returns true exactly when the position changes"
part fails for clocks that follow a reset. -/
theorem counter_reset_clock_cex :
    ((CounterState.new 40 39).reset.clock).snd = true ∧
    ((CounterState.new 40 39).reset.clock).fst.value =
      ((CounterState.new 40 39).reset).value := by
  decide

/-- Claim C6 (amended): for every Counter state whose `last_value` field
agrees with the current position `internal / 4` (true initially and after
every `clock()`, but not restored by `reset()`), a `clock()` advances the
internal value by exactly one modulo `4 * period` and returns `true` exactly
when the position value changes; the agreement is re-established by the
clock itself.  A `clock()` immediately after `reset()` can instead return
`true` without a position change (see the counterexample). -/
theorem counter_clock_behaviour (c : CounterState)
    (hsync : c.lastValue = c.value)
    (hlt : c.internalValue < c.period * 4)
    (hper : c.period * 4 ≤ 256) :
    (c.clock).fst.internalValue = (c.internalValue + 1) % (c.period * 4) ∧
    ((c.clock).snd = true ↔ (c.clock).fst.value ≠ c.value) ∧
    (c.clock).fst.lastValue = (c.clock).fst.value ∧
    (c.clock).fst.period = c.period := by
  have hmod : (c.internalValue + 1) % 256 % (c.period * 4) =
      (c.internalValue + 1) % (c.period * 4) := by
    rcases Nat.lt_or_ge (c.internalValue + 1) 256 with hsmall | hbig
    · rw [Nat.mod_eq_of_lt hsmall]
    · have h1 : c.internalValue + 1 = 256 := by omega
      have h2 : c.period * 4 = 256 := by omega
      rw [h1, h2]
  simp only [CounterState.value] at hsync
  by_cases hdec : c.lastValue ≠ (c.internalValue + 1) % 256 % (c.period * 4) / 4
  · have hclock : c.clock =
        ({ c with internalValue := (c.internalValue + 1) % 256 % (c.period * 4),
                  lastValue := (c.internalValue + 1) % 256 % (c.period * 4) / 4 }, true) := by
      simp only [CounterState.clock, CounterState.value]
      rw [if_pos hdec]
    rw [hclock]
    simp only [CounterState.value]
    rw [hsync] at hdec
    refine ⟨hmod, ?_, trivial, trivial⟩
    simp only [true_iff]
    exact fun hh => hdec hh.symm
  · push_neg at hdec
    have hclock : c.clock =
        ({ c with internalValue := (c.internalValue + 1) % 256 % (c.period * 4) }, false) := by
      simp only [CounterState.clock, CounterState.value]
      rw [if_neg (by simpa using hdec)]
    rw [hclock]
    simp only [CounterState.value]
    have heq : (c.internalValue + 1) % 256 % (c.period * 4) / 4 = c.internalValue / 4 := by
      rw [← hdec, hsync]
    refine ⟨hmod, ?_, ?_, trivial⟩
    · simp [heq]
    · rw [hdec]

/-- Witness for `counter_clock_behaviour` at a fresh 40-position sprite
counter. -/
theorem counter_clock_behaviour_witness :
    ((CounterState.new 40 39).clock).fst.internalValue =
      ((CounterState.new 40 39).internalValue + 1) %
        ((CounterState.new 40 39).period * 4) ∧
    (((CounterState.new 40 39).clock).snd = true ↔
      ((CounterState.new 40 39).clock).fst.value ≠ (CounterState.new 40 39).value) ∧
    ((CounterState.new 40 39).clock).fst.lastValue =
      ((CounterState.new 40 39).clock).fst.value ∧
    ((CounterState.new 40 39).clock).fst.period = (CounterState.new 40 39).period :=
  counter_clock_behaviour (CounterState.new 40 39) (by decide) (by decide) (by decide)

/-- Helper: a left-nested `Option.or` chain picks the first non-`none`
element, i.e. agrees with `List.findSome?` on the candidate list. -/
theorem orChain_eq_findSome (a b c d e f : Option Nat) (bk : Nat) :
    (((((a.or b).or c).or d).or e).or f).getD bk =
      (([a, b, c, d, e, f].findSome? id).getD bk) := by
  cases a <;> cases b <;> cases c <;> cases d <;> cases e <;> cases f <;> rfl

/-- Claim C8: for every TIA state and pixel `x`, `get_pixel_color` returns
the first non-transparent candidate in the order P0, M0, P1, M1, PF, BL
(priority flag clear) or PF, BL, P0, M0, P1, M1 (priority flag set), falling
back to COLUBK. -/
theorem tia_priority_mux (s : TIAState) (x : Nat) :
    s.getPixelColor x =
      prioritySelect s.pf.priority (s.getP0Color x) (s.getM0Color x)
        (s.getP1Color x) (s.getM1Color x) s.pf.getColor
        (s.bl.getColor s.colors) s.colors.colubk := by
  unfold TIAState.getPixelColor prioritySelect
  cases hp : s.pf.priority <;> simp [orChain_eq_findSome]

/-- Claim C5: every branch instruction consumes exactly 2 cycles when not
taken, 3 cycles when taken to a target on the same page as the
post-instruction program counter, and 4 cycles when taken across a page.
(The base cycles come from the opcode table; `Relative` addressing never
reports a page crossing, so the table's extra-cycle column never fires; the
rest comes from `add_branch_cycles`.) -/
theorem branch_timing (k : BranchKind) (st : BranchState) (addr : Nat) :
    branchConsumedCycles k st addr =
      if branchTaken k st then (if pagesDiffer st.pc addr then 4 else 3) else 2 := by
  cases k <;>
    simp only [branchConsumedCycles, execBranch, branchTaken, branchBaseCycles,
      branchExtraCycles, relativePageCrossed, BranchState.bcc, BranchState.bcs,
      BranchState.beq, BranchState.bmi, BranchState.bne, BranchState.bpl,
      BranchState.bvc, BranchState.bvs, addBranchCycles, pagesDiffer,
      Bool.false_eq_true, if_false] <;>
    split_ifs <;> simp_all <;> omega

/-- Helper: `clockN` splits over addition. -/
theorem clockN_add (a b : Nat) (s : RiotState) :
    RiotState.clockN (a + b) s = (RiotState.clockN a s).bind (RiotState.clockN b) := by
  induction a generalizing s with
  | zero => simp [RiotState.clockN]
  | succ n ih =>
    have hre : n + 1 + b = (n + b) + 1 := by omega
    rw [hre]
    show RiotState.clockN ((n + b) + 1) s = _
    simp only [RiotState.clockN, Option.bind_assoc]
    cases s.clock <;> simp [ih]

/-- Helper: a clock with at least two cycles left just decrements the
countdown. -/
theorem clock_of_two_le (s : RiotState) (h : 2 ≤ s.cycleCount) :
    s.clock = some { s with cycleCount := s.cycleCount - 1 } := by
  unfold RiotState.clock
  rw [if_neg (by omega), if_neg (by omega)]

/-- Helper: `k` clocks drain `k` from the countdown while it stays positive. -/
theorem clockN_drain (k : Nat) (s : RiotState) (h : k + 1 ≤ s.cycleCount) :
    RiotState.clockN k s = some { s with cycleCount := s.cycleCount - k } := by
  induction k generalizing s with
  | zero =>
    show some s = _
    congr 1
  | succ n ih =>
    show s.clock.bind (RiotState.clockN n) = _
    rw [clock_of_two_le s (by omega)]
    simp only [Option.some_bind]
    rw [ih _ (by dsimp only; omega)]
    congr 2
    dsimp only
    omega

/-- Helper: from a full 64-cycle countdown, 64 clocks perform exactly one
`decrement`. -/
theorem clockN_64_decrement (s : RiotState) (h : s.cycleCount = 64) :
    RiotState.clockN 64 s = some (RiotState.decrement { s with cycleCount := 0 }) := by
  have h63 : RiotState.clockN 63 s = some { s with cycleCount := 1 } := by
    rw [clockN_drain 63 s (by omega)]
    rw [h]
  have hsplit : (64 : Nat) = 63 + 1 := by norm_num
  rw [hsplit, clockN_add, h63]
  simp only [Option.some_bind]
  show ({ s with cycleCount := 1 } : RiotState).clock.bind (RiotState.clockN 0) = _
  unfold RiotState.clock
  norm_num
  rfl

/-- Helper: with resolution 64 and a full countdown, each block of 64 clocks
decrements `INTIM` once while it stays nonnegative. -/
theorem tim64_steps (j : Nat) (s : RiotState)
    (hcc : s.cycleCount = 64) (hres : s.resolution = 64) (hj : j ≤ s.intim) :
    RiotState.clockN (64 * j) s =
      some { s with intim := s.intim - j, cycleCount := 64 } := by
  induction j generalizing s with
  | zero =>
    show some s = _
    rw [← hcc]
    congr 1
  | succ n ih =>
    have hsplit : 64 * (n + 1) = 64 + 64 * n := by ring
    rw [hsplit, clockN_add, clockN_64_decrement s hcc]
    simp only [Option.some_bind]
    have hdec : RiotState.decrement { s with cycleCount := 0 } =
        { s with intim := s.intim - 1, cycleCount := 64 } := by
      unfold RiotState.decrement
      dsimp only
      rw [if_neg (by omega), if_neg (by omega), if_neg (by omega), hres]
    rw [hdec]
    rw [ih _ (by dsimp only) (by dsimp only; exact hres) (by dsimp only; omega)]
    congr 2
    dsimp only
    omega

/-- Helper: 64 clocks from `INTIM = 0` underflow the timer: `INTIM` wraps to
0xFF, `INSTAT` becomes 0xC0, and the resolution drops to 1. -/
theorem tim64_underflow (s : RiotState) (hcc : s.cycleCount = 64)
    (hintim : s.intim = 0) :
    RiotState.clockN 64 s =
      some { s with intim := 255, instat := 0xC0, resolution := 1, cycleCount := 1 } := by
  rw [clockN_64_decrement s hcc]
  unfold RiotState.decrement
  dsimp only
  rw [if_pos hintim, if_pos hintim, if_pos hintim]

/-- Helper: the state right after writing `K ≥ 1` to TIM64T: `INTIM = K - 1`
(the write immediately decrements once), resolution and countdown 64. -/
theorem write_tim64 (K : Nat) (h1 : 1 ≤ K) :
    RiotState.new.write 0x296 K =
      { RiotState.new with intim := K - 1, resolution := 64, cycleCount := 64 } := by
  unfold RiotState.write RiotState.initTimer RiotState.decrement
  rw [if_neg (by norm_num), if_neg (by norm_num), if_neg (by norm_num),
      if_neg (by norm_num), if_neg (by norm_num), if_pos rfl]
  dsimp only
  rw [if_neg (by omega), if_neg (by omega), if_neg (by omega)]

/-- Claim C1 (amended): writing `K` (1 ≤ K ≤ 255) to TIM64T on a fresh RIOT
immediately leaves `INTIM = K - 1` (the write itself performs the first
decrement); after `64 * (K - 1)` subsequent clocks `INTIM = 0`; after
`64 * K` clocks `INTIM = 0xFF` and `INSTAT = 0xC0`, i.e. bit 7 is set.  (The
claim as stated put each milestone one 64-tick block later; see the
counterexample.) -/
theorem riot_tim64t_timing (K : Nat) (h1 : 1 ≤ K) (h2 : K ≤ 255) :
    (RiotState.new.write 0x296 K).intim = K - 1 ∧
    (RiotState.clockN (64 * (K - 1)) (RiotState.new.write 0x296 K)).map
        RiotState.intim = some 0 ∧
    (RiotState.clockN (64 * K) (RiotState.new.write 0x296 K)).map
        RiotState.intim = some 255 ∧
    (RiotState.clockN (64 * K) (RiotState.new.write 0x296 K)).map
        RiotState.instat = some 0xC0 := by
  rw [write_tim64 K h1]
  have hsteps := tim64_steps (K - 1)
      { RiotState.new with intim := K - 1, resolution := 64, cycleCount := 64 }
      rfl rfl (by dsimp only; omega)
  rw [Nat.sub_self] at hsteps
  have hK : 64 * K = 64 * (K - 1) + 64 := by omega
  refine ⟨rfl, ?_, ?_, ?_⟩
  · rw [hsteps]
    rfl
  · rw [hK, clockN_add, hsteps, Option.some_bind]
    rw [tim64_underflow
          { RiotState.new with intim := 0, resolution := 64, cycleCount := 64 } rfl rfl]
    rfl
  · rw [hK, clockN_add, hsteps, Option.some_bind]
    rw [tim64_underflow
          { RiotState.new with intim := 0, resolution := 64, cycleCount := 64 } rfl rfl]
    rfl

/-- Witness for `riot_tim64t_timing` at K = 2. -/
theorem riot_tim64t_timing_witness :
    (RiotState.new.write 0x296 2).intim = 2 - 1 ∧
    (RiotState.clockN (64 * (2 - 1)) (RiotState.new.write 0x296 2)).map
        RiotState.intim = some 0 ∧
    (RiotState.clockN (64 * 2) (RiotState.new.write 0x296 2)).map
        RiotState.intim = some 255 ∧
    (RiotState.clockN (64 * 2) (RiotState.new.write 0x296 2)).map
        RiotState.instat = some 0xC0 :=
  riot_tim64t_timing 2 (by decide) (by decide)

/-- Counterexample for claim C1 as stated: for K = 2, after the TIM64T write
and exactly 64 clocks, `INTIM` reads 0, not K - 1 = 1 — the write itself
already performed the first decrement, so every milestone of the claim is one
64-tick block too late. -/
theorem riot_tim64t_claim_cex :
    ¬ (RiotState.clockN 64 (RiotState.new.write 0x296 2)).map RiotState.intim =
        some (2 - 1) := by
  decide

/-- Claim C10: a fresh RIOT has countdown 0; `clock()` on a zero countdown
underflows the `usize` subtraction (modelled as `none`); any TIMxT write
makes the countdown and resolution positive, and from then on `clock()`
stays free of underflow (positivity is preserved). -/
theorem riot_clock_countdown_underflow :
    RiotState.new.cycleCount = 0 ∧
    (∀ s : RiotState, s.cycleCount = 0 → s.clock = none) ∧
    (∀ (s : RiotState) (v r : Nat),
        r = 0x294 ∨ r = 0x295 ∨ r = 0x296 ∨ r = 0x297 →
        1 ≤ (s.write r v).cycleCount ∧ 1 ≤ (s.write r v).resolution) ∧
    (∀ s : RiotState, 1 ≤ s.cycleCount → 1 ≤ s.resolution →
        ∃ t, s.clock = some t ∧ 1 ≤ t.cycleCount ∧ 1 ≤ t.resolution) := by
  refine ⟨rfl, ?_, ?_, ?_⟩
  · intro s h
    unfold RiotState.clock
    rw [if_pos h]
  · intro s v r hr
    have key : ∀ res : Nat, 1 ≤ res →
        1 ≤ (s.initTimer v res).cycleCount ∧ 1 ≤ (s.initTimer v res).resolution := by
      intro res hres
      unfold RiotState.initTimer RiotState.decrement
      dsimp only
      split_ifs <;> simp_all
    rcases hr with h | h | h | h <;> subst h <;>
      unfold RiotState.write <;>
      norm_num <;>
      exact key _ (by norm_num)
  · intro s h1 h2
    unfold RiotState.clock
    rw [if_neg (by omega)]
    by_cases hz : s.cycleCount - 1 = 0
    · rw [if_pos hz]
      refine ⟨_, rfl, ?_, ?_⟩ <;>
        unfold RiotState.decrement <;> dsimp only <;> split_ifs <;> omega
    · rw [if_neg hz]
      exact ⟨_, rfl, by dsimp only; omega, by dsimp only; omega⟩

/-- Witness for `riot_clock_countdown_underflow`: the fresh RIOT underflows;
after writing 5 to TIM64T the clock is well-defined. -/
theorem riot_clock_countdown_underflow_witness :
    RiotState.new.cycleCount = 0 ∧
    RiotState.new.clock = none ∧
    (∃ t, (RiotState.new.write 0x296 5).clock = some t ∧
      1 ≤ t.cycleCount ∧ 1 ≤ t.resolution) :=
  ⟨riot_clock_countdown_underflow.1,
   riot_clock_countdown_underflow.2.1 RiotState.new rfl,
   riot_clock_countdown_underflow.2.2.2 (RiotState.new.write 0x296 5)
     (by decide) (by decide)⟩

/-- Helper: bit-level facts about the stack addresses 0x80..0xff: they
survive the 13-bit mask, decode to A12 = 0, A9 = 0, A7 = 1, and map to RIOT
RAM cell `a - 128`. -/
theorem stack_addr_bits :
    ∀ a < 256, 128 ≤ a →
      (a &&& 0x1fff = a ∧ a &&& 0x1000 = 0 ∧ a &&& 0x200 = 0 ∧
       (a &&& 0x80 != 0) = true ∧ a &&& 0x7f = a - 128) := by
  decide

/-- Helper: `stack_push8` preserves the stack refinement relation while the
abstract stack holds fewer than 128 values. -/
theorem push_rel (m : Machine) (L : List Nat) (v : Nat)
    (hrel : StackRel m L) (hlen : L.length < 128) :
    StackRel (m.stackPush8 v) (v :: L) := by
  obtain ⟨hsp, hle, hram⟩ := hrel
  have hsp128 : 128 ≤ m.cpu.sp := by omega
  have hsplt : m.cpu.sp < 256 := by omega
  obtain ⟨hb1, hb2, hb3, hb4, hb5⟩ := stack_addr_bits m.cpu.sp hsplt hsp128
  have hpush : m.stackPush8 v =
      { m with
          riot := { m.riot with
            ram := Function.update m.riot.ram (m.cpu.sp - 128) v },
          cpu := { m.cpu with sp := (m.cpu.sp + 255) % 256 } } := by
    unfold Machine.stackPush8 Machine.cpuWrite Machine.busWrite RiotState.write
    dsimp only
    simp only [Nat.zero_or, hb1, hb2, hb3, hb4, hb5]
    norm_num
    exact fun h => absurd h (by omega)
  rw [hpush]
  refine ⟨?_, ?_, ?_⟩
  · dsimp only
    simp only [List.length_cons]
    omega
  · simp only [List.length_cons]
    omega
  · intro k hk
    dsimp only
    simp only [List.length_cons] at hk ⊢
    rcases Nat.lt_or_ge k L.length with hklt | hkge
    · rw [Function.update_noteq (by omega)]
      rw [hram k hklt]
      have hidx : L.length + 1 - 1 - k = (L.length - 1 - k) + 1 := by omega
      rw [hidx]
      rfl
    · have hkeq : k = L.length := by omega
      subst hkeq
      have hidx2 : (127 : Nat) - L.length = m.cpu.sp - 128 := by omega
      rw [hidx2, Function.update_same]
      have hidx : L.length + 1 - 1 - L.length = 0 := by omega
      rw [hidx]
      rfl

/-- Helper: on a non-empty abstract stack, `stack_pop8` returns the most
recent unmatched push and preserves the refinement relation. -/
theorem pop_rel (m : Machine) (L : List Nat)
    (hrel : StackRel m L) (hne : L ≠ []) :
    (m.stackPop8).fst = L.headD 0 ∧ StackRel (m.stackPop8).snd L.tail := by
  obtain ⟨hsp, hle, hram⟩ := hrel
  have hlen1 : 1 ≤ L.length := by
    cases L with
    | nil => exact absurd rfl hne
    | cons a t => simp
  have hsp1ub : m.cpu.sp + 1 < 256 := by omega
  have hsp1eq : (m.cpu.sp + 1) % 256 = m.cpu.sp + 1 := Nat.mod_eq_of_lt hsp1ub
  have hge : 128 ≤ m.cpu.sp + 1 := by omega
  obtain ⟨hb1, hb2, hb3, hb4, hb5⟩ := stack_addr_bits (m.cpu.sp + 1) hsp1ub hge
  have hpop : m.stackPop8 =
      (m.riot.ram (m.cpu.sp + 1 - 128),
       { m with cpu := { m.cpu with sp := m.cpu.sp + 1 } }) := by
    unfold Machine.stackPop8 Machine.cpuRead Machine.busRead RiotState.read
    dsimp only
    simp only [hsp1eq, Nat.zero_or, hb1, hb2, hb3, hb4, hb5]
    norm_num
    rw [if_pos (by omega : m.cpu.sp + 1 ≤ 255)]
    exact ⟨rfl, rfl⟩
  rw [hpop]
  have hval : m.riot.ram (m.cpu.sp + 1 - 128) = L.headD 0 := by
    have h1 : m.cpu.sp + 1 - 128 = 127 - (L.length - 1) := by omega
    rw [h1, hram (L.length - 1) (by omega)]
    have h2 : L.length - 1 - (L.length - 1) = 0 := by omega
    rw [h2]
    cases L with
    | nil => exact absurd rfl hne
    | cons a t => rfl
  refine ⟨hval, ?_, ?_, ?_⟩
  · dsimp only
    simp only [List.length_tail]
    omega
  · simp only [List.length_tail]
    omega
  · intro k hk
    dsimp only
    simp only [List.length_tail] at hk ⊢
    rw [hram k (by omega)]
    have hidx : L.length - 1 - k = (L.length - 1 - 1 - k) + 1 := by omega
    rw [hidx]
    cases L with
    | nil => exact absurd rfl hne
    | cons a t => rfl

/-- Helper: the machine run agrees with the ideal LIFO as long as the depth
bound holds, for every starting configuration in the refinement relation. -/
theorem runStack_eq_spec (ops : List StackOp) :
    ∀ (m : Machine) (L : List Nat), StackRel m L → depthOk L.length ops = true →
      (runStack m ops).snd = lifoSpecOutputs L ops := by
  induction ops with
  | nil => intro m L _ _; rfl
  | cons op rest ih =>
    intro m L hrel hok
    cases op with
    | push v =>
      unfold depthOk at hok
      rw [Bool.and_eq_true, decide_eq_true_eq] at hok
      show (runStack (m.stackPush8 v) rest).snd = lifoSpecOutputs (v :: L) rest
      have := ih (m.stackPush8 v) (v :: L) (push_rel m L v hrel hok.1)
      rw [this]
      have hlen : (v :: L).length = L.length + 1 := rfl
      rw [hlen]
      exact hok.2
    | pop =>
      unfold depthOk at hok
      rw [Bool.and_eq_true, decide_eq_true_eq] at hok
      have hne : L ≠ [] := by
        intro h
        subst h
        simp at hok
      obtain ⟨hfst, hrel2⟩ := pop_rel m L hrel hne
      show (m.stackPop8).fst :: (runStack (m.stackPop8).snd rest).snd =
        L.headD 0 :: lifoSpecOutputs L.tail rest
      rw [hfst, ih (m.stackPop8).snd L.tail hrel2 (by
        rw [List.length_tail]
        exact hok.2)]

/-- Claim C7 (amended): starting from the reset machine (SP = 0xff), any
interleaving of `stack_push8`/`stack_pop8` in which pops never outnumber
pushes AND at most 128 pushes are ever unmatched behaves as a LIFO: each pop
returns the most recent unmatched push.  (Beyond depth 128 the stack
addresses fall below 0x80, where the bus decodes to the TIA instead of RIOT
RAM — see the counterexample.) -/
theorem stack_lifo_bounded (ops : List StackOp) (rom : Nat → Nat)
    (hok : depthOk 0 ops = true) :
    (runStack (Machine.new rom) ops).snd = lifoSpecOutputs [] ops := by
  refine runStack_eq_spec ops (Machine.new rom) [] ⟨rfl, by norm_num, ?_⟩ hok
  intro k hk
  simp at hk

/-- Witness for `stack_lifo_bounded`: push 7, push 9, pop, pop returns 9
then 7. -/
theorem stack_lifo_bounded_witness :
    (runStack (Machine.new (fun _ => 0))
        [StackOp.push 7, StackOp.push 9, StackOp.pop, StackOp.pop]).snd =
      lifoSpecOutputs []
        [StackOp.push 7, StackOp.push 9, StackOp.pop, StackOp.pop] :=
  stack_lifo_bounded [StackOp.push 7, StackOp.push 9, StackOp.pop, StackOp.pop]
    (fun _ => 0) (by decide)

/-- Counterexample for claim C7 as stated: 129 pushes of the value 1
followed by one pop — pops never outnumber pushes, yet the pop returns 0,
not 1: the 129th push went to stack address 0x7f, which the bus routes to
the TIA (a write that is dropped), and the pop reads the TIA stub, which
returns 0. -/
theorem stack_lifo_unbounded_cex :
    noUnderflow 0 (List.replicate 129 (StackOp.push 1) ++ [StackOp.pop]) = true ∧
    (runStack (Machine.new (fun _ => 0))
        (List.replicate 129 (StackOp.push 1) ++ [StackOp.pop])).snd ≠
      lifoSpecOutputs [] (List.replicate 129 (StackOp.push 1) ++ [StackOp.pop]) := by
  decide

/-- Helper: `Counter::clock` leaves the period unchanged and sets the
internal value to the incremented value reduced mod `period * 4`. -/
theorem counter_clock_fields (c : CounterState) :
    (c.clock).fst.internalValue = (c.internalValue + 1) % 256 % (c.period * 4) ∧
    (c.clock).fst.period = c.period := by
  unfold CounterState.clock
  dsimp only
  split <;> exact ⟨rfl, rfl⟩

/-- Helper: the visible-dot section of `TIA::clock` never touches the HSYNC
counter. -/
theorem clockVisible_ctr (t : TIAState) : (t.clockVisible).ctr = t.ctr := by
  unfold TIAState.clockVisible
  dsimp only
  split <;> rfl

/-- Helper: the end-of-scanline section of `TIA::clock` never touches the
HSYNC counter. -/
theorem clockScanline_ctr (t : TIAState) (b : Bool) :
    ((t.clockScanline b).fst).ctr = t.ctr := by
  unfold TIAState.clockScanline
  dsimp only
  split
  · split <;> rfl
  · rfl

/-- Helper: after a full `TIA::clock` the HSYNC counter is exactly the
counter advanced by one `Counter::clock`. -/
theorem tia_clock_ctr (s : TIAState) :
    ((s.clock).fst).ctr = (s.ctr.clock).fst := by
  unfold TIAState.clock
  rw [clockScanline_ctr, clockVisible_ctr]

set_option maxHeartbeats 2000000 in
/-- Helper: every TIA register write leaves the HSYNC counter untouched,
except the VSYNC strobe, which resets its internal value to 0. -/
theorem tia_write_ctr (s : TIAState) (a v : Nat) :
    (s.write a v).ctr = s.ctr ∨
    (s.write a v).ctr = { s.ctr with internalValue := 0 } := by
  unfold TIAState.write
  simp only [apply_ite TIAState.ctr, ite_self]
  by_cases h0 : a = 0
  · rw [if_pos h0]
    by_cases hvs : (v &&& 2 != 0) = true
    · rw [if_pos hvs]
      right
      rfl
    · rw [if_neg hvs]
      left
      rfl
  · rw [if_neg h0]
    left
    rfl

/-- Claim C9: in every TIA state satisfying the HSYNC invariant (period 57,
internal phase in [0, 228)) — which holds for the freshly built TIA — the
position `value()` equals `internal / 4` and lies in [0, 57), and the
invariant is preserved by `TIA::clock`, by the internal `tick` path, and by
every register write including the VSYNC strobe. -/
theorem tia_hsync_invariant (s : TIAState) (h : hsyncInv s) :
    hsyncInv TIAState.new ∧
    s.ctr.value = s.ctr.internalValue / 4 ∧
    s.ctr.value < 57 ∧
    hsyncInv (s.clock).fst ∧
    hsyncInv s.tick ∧
    (∀ a v, hsyncInv (s.write a v)) := by
  obtain ⟨hper, hlt⟩ := h
  refine ⟨⟨rfl, by decide⟩, rfl, ?_, ?_, ?_, ?_⟩
  · unfold CounterState.value
    omega
  · obtain ⟨hiv, hp⟩ := counter_clock_fields s.ctr
    unfold hsyncInv
    rw [tia_clock_ctr, hiv, hp, hper]
    refine ⟨rfl, ?_⟩
    have h228 : (57 : Nat) * 4 = 228 := by norm_num
    rw [h228]
    exact Nat.mod_lt _ (by norm_num)
  · unfold TIAState.tick
    dsimp only
    split_ifs with h1 h2
    · exact ⟨hper, hlt⟩
    · exact ⟨hper, by norm_num⟩
    · refine ⟨hper, ?_⟩
      dsimp only
      omega
  · intro a v
    unfold hsyncInv
    rcases tia_write_ctr s a v with hc | hc
    · rw [hc]
      exact ⟨hper, hlt⟩
    · rw [hc]
      exact ⟨hper, by norm_num⟩

/-- Witness for `tia_hsync_invariant` at the freshly built TIA state. -/
theorem tia_hsync_invariant_witness :
    hsyncInv TIAState.new ∧
    TIAState.new.ctr.value = TIAState.new.ctr.internalValue / 4 ∧
    TIAState.new.ctr.value < 57 ∧
    hsyncInv (TIAState.new.clock).fst ∧
    hsyncInv TIAState.new.tick ∧
    (∀ a v, hsyncInv (TIAState.new.write a v)) :=
  tia_hsync_invariant TIAState.new ⟨rfl, by decide⟩

end Atari
